import Mathlib

/-!
Shallow embedding of the progression / combat core of the LLM-Text-RPG
repository (src/stats.js, src/bar.js, src/level.js, src/utils.js,
src/player.js, src/monster.js, main.js) and proofs about the claims of
its specification.

JavaScript numbers are modelled by `ℚ` (every numeric value the claims
touch is an exactly representable small rational; `NaN` outcomes are
modelled by `Option`/`Except` where a claim can reach them).  Methods
that `throw` are modelled with `Except`; mutating methods return the
updated object.
-/

namespace TextRPG

/-- Modelled from the spec: the recognized ability enumeration
(`StatType` in `config.js`, a file of this repository that is not under
src/).  Spec §3: "a fixed enumerated set, e.g. STRENGTH, DEXTERITY,
CONSTITUTION, INTELLIGENCE, WISDOM, CHARISMA"; the short keys are the
ones the source data uses (monster JSON prompt, default weapon, stat
printouts): STR, DEX, CON, INT, WIS, CHA.  The pseudo-stat "LUCK" is
handled separately by `Stats.get` in src/stats.js and is not a member. -/
def statTypeValues : List String := ["STR", "DEX", "CON", "INT", "WIS", "CHA"]

/-- src/utils.js `calculateStatBonus`:
`Math.floor((statValue - 10) / 2)`. -/
def calculateStatBonus (statValue : ℚ) : ℤ := ⌊(statValue - 10) / 2⌋

/-- Error taxonomy of the spec (§7): the validation errors thrown by
`Stats.set` / `Stats.get` in src/stats.js. -/
inductive StatsError where
  | invalidAbility
  | invalidValue
deriving DecidableEq, Repr

/-- src/stats.js `Stats`: the `_values` object, keyed by the members of
`statTypeValues`.  The function is total on `String`; keys outside the
enumeration are never stored nor read (both accessors guard on
membership first), so their value is an unobservable default 0. -/
structure Stats where
  _values : String → ℚ

/-- src/stats.js `Stats` constructor: for each recognized stat type,
take the supplied value when it is defined (`values[type] !== undefined`,
modelled by `Option`), else the base value 10. -/
def Stats.ofValues (values : String → Option ℚ) : Stats :=
  ⟨fun t => if t ∈ statTypeValues then (values t).getD 10 else 0⟩

/-- src/stats.js `Stats.get`: throws for a stat type outside the
recognized set, except the tolerated pseudo-stat `LUCK`, which returns
10. -/
def Stats.get (s : Stats) (statType : String) : Except StatsError ℚ :=
  if statType ∈ statTypeValues then .ok (s._values statType)
  else if statType = "LUCK" then .ok 10
  else .error .invalidAbility

/-- src/stats.js `Stats.set`: throws for an unrecognized stat type;
throws when the value is negative (the source also rejects non-number
values with `typeof value !== 'number'`; in this embedding every value
is a number, so that branch is unreachable); otherwise overwrites the
stored value.  Both guards run before the write. -/
def Stats.set (s : Stats) (statType : String) (value : ℚ) :
    Except StatsError Stats :=
  if statType ∉ statTypeValues then .error .invalidAbility
  else if value < 0 then .error .invalidValue
  else .ok ⟨fun t => if t = statType then value else s._values t⟩

/-- src/stats.js `Stats.getBonus`: 0 for an unrecognized stat type other
than `LUCK`; otherwise the bonus of the (then always successful) `get`. -/
def Stats.getBonus (s : Stats) (statType : String) : ℤ :=
  if statType ∉ statTypeValues ∧ statType ≠ "LUCK" then 0
  else calculateStatBonus ((s.get statType).toOption.getD 0)

/-- The error thrown by the `Bar` constructor and `max` setter
(spec §7: InvalidRangeError). -/
inductive BarError where
  | invalidRange
deriving DecidableEq, Repr

/-- src/bar.js `Bar`: a current value `_position` and a maximum `_max`. -/
structure Bar where
  _max : ℚ
  _position : ℚ
deriving DecidableEq, Repr

/-- src/bar.js `Bar` constructor: throws when `max ≤ 0`; clamps the
initial position into `[0, max]` (`Math.min(Math.max(0, p), max)`).
The source defaults `initialPosition` to `max`; call sites here pass it
explicitly. -/
def Bar.make (mx : ℚ) (initialPosition : ℚ) : Except BarError Bar :=
  if mx ≤ 0 then .error .invalidRange
  else .ok ⟨mx, min (max 0 initialPosition) mx⟩

/-- src/bar.js `set value(newPosition)`: clamp into `[0, _max]`. -/
def Bar.setValue (b : Bar) (newPosition : ℚ) : Bar :=
  { b with _position := min (max 0 newPosition) b._max }

/-- src/bar.js `set max(newMax)`: throws when `newMax ≤ 0`; otherwise
sets the maximum and clamps the position down when it now exceeds it. -/
def Bar.setMax (b : Bar) (newMax : ℚ) : Except BarError Bar :=
  if newMax ≤ 0 then .error .invalidRange
  else .ok ⟨newMax, if b._position > newMax then newMax else b._position⟩

/-- src/bar.js `isFull`: `position >= max`. -/
def Bar.isFull (b : Bar) : Bool := b._max ≤ b._position

/-- src/bar.js `isEmpty`: `position <= 0`. -/
def Bar.isEmpty (b : Bar) : Bool := b._position ≤ 0

/-- The invariant of spec §3 (ResourceBar). -/
def Bar.Inv (b : Bar) : Prop :=
  0 ≤ b._position ∧ b._position ≤ b._max ∧ 0 < b._max

instance (b : Bar) : Decidable b.Inv := by
  unfold Bar.Inv; infer_instance

/-- src/level.js `LEVEL_CONSTANTS.BASE_EXP_TO_NEXT_LEVEL`. -/
def BASE_EXP_TO_NEXT_LEVEL : ℚ := 100

/-- src/level.js `LEVEL_CONSTANTS.EXP_MULTIPLIER_PER_LEVEL` (1.5). -/
def EXP_MULTIPLIER_PER_LEVEL : ℚ := 3 / 2

/-- src/level.js `calculateExpToNextLevel`:
`Math.floor(BASE_EXP_TO_NEXT_LEVEL * (this.value * EXP_MULTIPLIER_PER_LEVEL))`.
Levels and experience are integer in every reachable state (the source
only ever adds integer amounts), so the level is `ℕ` here. -/
def calculateExpToNextLevel (value : ℕ) : ℕ :=
  (⌊BASE_EXP_TO_NEXT_LEVEL * ((value : ℚ) * EXP_MULTIPLIER_PER_LEVEL)⌋).toNat

/-- src/level.js `Level`: current level `value`, current experience
`exp`, and the cached threshold `expToNextLevel`. -/
structure Level where
  value : ℕ
  exp : ℕ
  expToNextLevel : ℕ
deriving DecidableEq, Repr

/-- src/level.js `Level` constructor: stores level and experience and
computes the threshold from the level. -/
def Level.make (initialLevel : ℕ) (initialExp : ℕ) : Level :=
  { value := initialLevel, exp := initialExp,
    expToNextLevel := calculateExpToNextLevel initialLevel }

/-- src/level.js `levelUp`: subtract the threshold from the experience
(carry-over), increment the level, recompute the threshold.  It is only
ever called when `expToNextLevel ≤ exp` (the loop guard of
`checkAndProcessLevelUp`), so the `ℕ` subtraction is exact there. -/
def Level.levelUp (s : Level) : Level :=
  { value := s.value + 1, exp := s.exp - s.expToNextLevel,
    expToNextLevel := calculateExpToNextLevel (s.value + 1) }

/-- src/level.js `checkAndProcessLevelUp`: repeatedly level up while
`exp >= expToNextLevel`; returns the updated track and whether at least
one level-up occurred. -/
def Level.checkAndProcessLevelUp (s : Level) : Level × Bool :=
  if _h : s.expToNextLevel ≤ s.exp then
    ((Level.levelUp s).checkAndProcessLevelUp.1, true)
  else (s, false)
termination_by 2 * s.exp + (if s.expToNextLevel = 0 then 1 else 0)
decreasing_by
  have ht : calculateExpToNextLevel (s.value + 1) = 150 * (s.value + 1) := by
    unfold calculateExpToNextLevel BASE_EXP_TO_NEXT_LEVEL EXP_MULTIPLIER_PER_LEVEL
    have hq : (100 : ℚ) * (((s.value + 1 : ℕ) : ℚ) * (3 / 2))
        = ((150 * (s.value + 1) : ℕ) : ℚ) := by
      push_cast; ring
    rw [hq, Int.floor_natCast, Int.toNat_natCast]
  simp only [Level.levelUp, ht]
  split <;> split <;> omega

/-- src/level.js `gainExp`: add the amount, then process level-ups. -/
def Level.gainExp (s : Level) (amount : ℕ) : Level × Bool :=
  Level.checkAndProcessLevelUp { s with exp := s.exp + amount }

/-- Well-formedness of a `Level` state: the cached threshold is the one
computed from the current level (established by the constructor and
re-established by every `levelUp`). -/
def Level.WF (s : Level) : Prop :=
  s.expToNextLevel = calculateExpToNextLevel s.value

instance (s : Level) : Decidable s.WF := by
  unfold Level.WF; infer_instance

/-- src/monster.js `Monster`: the parts the claims depend on — the stat
block and the HP bar.  (name, description, baseExp, dropChance and the
special-ability strings are opaque payload with no bearing on any claim
here.) -/
structure Monster where
  stats : Stats
  hpBar : Bar

/-- src/monster.js `get attackPower`:
`Math.max(1, this.stats.get(StatType.STRENGTH) || 5)`.
`stats.get("STR")` always succeeds (`"STR"` is a recognized stat type;
see `Stats.get_STR`), and `x || 5` yields 5 exactly when `x` is falsy —
for a number, when it is 0 (`NaN`, the only other falsy number, has no
counterpart in `ℚ`). -/
def Monster.attackPower (m : Monster) : ℚ :=
  max 1 (if m.stats._values "STR" = 0 then 5 else m.stats._values "STR")

/-- src/monster.js `get defense`:
`Math.max(0, (this.stats.get(StatType.CONSTITUTION) || 1) / 2)`. -/
def Monster.defense (m : Monster) : ℚ :=
  max 0 ((if m.stats._values "CON" = 0 then 1 else m.stats._values "CON") / 2)

/-- src/monster.js `takeDamage`: `this.hpBar.value -= amount`, then
report whether the bar is now empty (the defeat signal). -/
def Monster.takeDamage (m : Monster) (amount : ℚ) : Monster × Bool :=
  let m' : Monster := { m with hpBar := m.hpBar.setValue (m.hpBar._position - amount) }
  (m', m'.hpBar.isEmpty)

/-- src/player.js: an item record as far as `attackPower` reads it —
its `damage` dice string.  (`name`, `type`, `effect` are opaque.) -/
structure Weapon where
  damage : String

/-- JavaScript `String.prototype.split(sep)` for a single-character
separator, over the character list of the string: `"1d4".split('d')`
is `["1", "4"]`, `"14".split('d')` is `["14"]`, `"1d".split('d')` is
`["1", ""]`. -/
def jsSplitChar (sep : Char) : List Char → List (List Char)
  | [] => [[]]
  | c :: rest =>
    if c = sep then [] :: jsSplitChar sep rest
    else
      match jsSplitChar sep rest with
      | [] => [[c]]
      | h :: t => (c :: h) :: t

/-- JavaScript `parseInt` on a string (given as its character list):
the value of the leading run of decimal digits, `NaN` (here `none`)
when there is none.  (Leading sign/whitespace and radix prefixes never
occur in the dice strings this program handles.) -/
def jsParseInt (cs : List Char) : Option ℕ :=
  let digits := cs.takeWhile Char.isDigit
  if digits.isEmpty then none
  else some (digits.foldl (fun n c => 10 * n + (c.toNat - 48)) 0)

/-- src/player.js `get attackPower`, the die-size extraction:
`parseInt(damage.split('d')[1])` — `none` both when the notation has no
`'d'` (index 1 is undefined, and `parseInt(undefined)` is `NaN`) and
when what follows the first `'d'` has no leading digit. -/
def damageDieSides (damage : String) : Option ℕ :=
  ((jsSplitChar 'd' damage.data).get? 1).bind jsParseInt

/-- src/player.js `Player`: the parts the player-side claims depend on —
the stat block and the equipped weapon slot.  (bars, level, gold and
inventory have no bearing on the attack-power claim.) -/
structure Player where
  stats : Stats
  equippedWeapon : Option Weapon

/-- src/player.js `get attackPower`:
`baseAttack = 5 + bonus(STR)`; if a weapon is equipped and its `damage`
is truthy (a non-empty string), add `die/2 + 1`; result
`Math.floor(Math.max(1, baseAttack))`.  When the damage string does not
parse, `parseInt` gives `NaN`, which poisons the whole computation —
modelled by `none`. -/
def Player.attackPower (p : Player) : Option ℤ :=
  let baseAttack : ℚ := 5 + (calculateStatBonus (p.stats._values "STR") : ℚ)
  match p.equippedWeapon with
  | none => some ⌊max 1 baseAttack⌋
  | some w =>
    if w.damage = "" then some ⌊max 1 baseAttack⌋
    else
      match damageDieSides w.damage with
      | none => none
      | some d => some ⌊max 1 (baseAttack + (d : ℚ) / 2 + 1)⌋

/-!
The turn algorithm of main.js (`startGame`).  The random draws of
`odds(p)` (`Math.random() < p`, src/utils.js) are passed in explicitly
as rationals in `[0, 1)`; the combat attributes and the constant
`GAME_CONSTANTS.CRITICAL_MULTIPLIER` (from `config.js`, a file of this
repository that is not under src/) are parameters, exactly the values
the loop reads from the two combatants.
-/

/-- main.js, player's turn (the player attacks the monster):
hit test `hitDraw < hitChance/100`; on hit, critical test
`critDraw < criticalChance/100` multiplies the damage by `critMult` and
floors it; mitigation `max(1, damage - floor(defense))`; the result is
the amount passed to `monster.takeDamage` (`none` on a miss — no damage
call at all).  Note: no evasion test occurs on this side. -/
def resolvePlayerAttack (hitChance criticalChance attackPower defense
    critMult hitDraw critDraw : ℚ) : Option ℚ :=
  if hitDraw < hitChance / 100 then
    let damage : ℚ :=
      if critDraw < criticalChance / 100
      then (⌊attackPower * critMult⌋ : ℚ) else attackPower
    some (max 1 (damage - (⌊defense⌋ : ℚ)))
  else none

/-- main.js, monster's turn with an `attack`-type action (the monster
attacks the player): hit test, critical test, mitigation as on the
player's side, then the evasion test `evadeDraw < evasionRate/100`
forces the damage to 0; the result is the amount passed to
`player.takeDamage` (which is called even when the attack was evaded,
with 0) — `none` on a miss. -/
def resolveMonsterAttack (hitChance criticalChance attackPower defense
    evasionRate critMult hitDraw critDraw evadeDraw : ℚ) : Option ℚ :=
  if hitDraw < hitChance / 100 then
    let damage : ℚ :=
      if critDraw < criticalChance / 100
      then (⌊attackPower * critMult⌋ : ℚ) else attackPower
    let actualDamage : ℚ := max 1 (damage - (⌊defense⌋ : ℚ))
    some (if evadeDraw < evasionRate / 100 then 0 else actualDamage)
  else none

/-- Follows the spec's words, for comparison with the source-derived
`resolvePlayerAttack` (spec §4.5 step 4: the evasion test is "symmetric
for both combatant roles"): the player-attacks-monster resolution as the
spec describes it, with the defender's (monster's) evasion test after
damage computation. -/
def resolvePlayerAttackSpec (hitChance criticalChance attackPower defense
    evasionRate critMult hitDraw critDraw evadeDraw : ℚ) : Option ℚ :=
  if hitDraw < hitChance / 100 then
    let damage : ℚ :=
      if critDraw < criticalChance / 100
      then (⌊attackPower * critMult⌋ : ℚ) else attackPower
    let actualDamage : ℚ := max 1 (damage - (⌊defense⌋ : ℚ))
    some (if evadeDraw < evasionRate / 100 then 0 else actualDamage)
  else none

/-!  General lemmas about the embedded definitions.  -/

/-- The closed form of the level threshold:
`floor(100 * (v * 1.5)) = 150 * v`. -/
theorem calculateExpToNextLevel_eq (value : ℕ) :
    calculateExpToNextLevel value = 150 * value := by
  unfold calculateExpToNextLevel BASE_EXP_TO_NEXT_LEVEL EXP_MULTIPLIER_PER_LEVEL
  have h : (100 : ℚ) * ((value : ℚ) * (3 / 2)) = ((150 * value : ℕ) : ℚ) := by
    push_cast; ring
  rw [h, Int.floor_natCast, Int.toNat_natCast]

/-- Reading the recognized key `"STR"` never throws: it returns the
stored value (justifies the direct `_values` reads in the derived
attributes, which model `stats.get(StatType.STRENGTH)`). -/
theorem Stats.get_STR (s : Stats) : s.get "STR" = .ok (s._values "STR") := rfl

/-- Reading the recognized key `"CON"` never throws: it returns the
stored value. -/
theorem Stats.get_CON (s : Stats) : s.get "CON" = .ok (s._values "CON") := rfl

/-- The bonus lookup on the recognized key `"STR"` is the stat-bonus
derivation applied to the stored value. -/
theorem Stats.getBonus_STR (s : Stats) :
    s.getBonus "STR" = calculateStatBonus (s._values "STR") := by
  simp [Stats.getBonus, Stats.get, statTypeValues, Except.toOption]

/-- Unfolding lemma: the loop of `checkAndProcessLevelUp` stops as soon
as the experience is below the threshold. -/
theorem Level.checkAndProcess_stop (s : Level) (h : s.exp < s.expToNextLevel) :
    s.checkAndProcessLevelUp = (s, false) := by
  rw [Level.checkAndProcessLevelUp, dif_neg (Nat.not_le.mpr h)]

/-- Unfolding lemma: one iteration of the loop of
`checkAndProcessLevelUp`. -/
theorem Level.checkAndProcess_step (s : Level) (h : s.expToNextLevel ≤ s.exp) :
    s.checkAndProcessLevelUp = ((Level.levelUp s).checkAndProcessLevelUp.1, true) := by
  rw [Level.checkAndProcessLevelUp, dif_pos h]

/-- The loop of `checkAndProcessLevelUp` always exits with the
experience strictly below the (stored) threshold. -/
theorem Level.checkAndProcess_exp_lt (s : Level) :
    s.checkAndProcessLevelUp.1.exp < s.checkAndProcessLevelUp.1.expToNextLevel := by
  induction s using Level.checkAndProcessLevelUp.induct with
  | case1 s h ih =>
    rw [Level.checkAndProcess_step s h]
    exact ih
  | case2 s h =>
    rw [Level.checkAndProcessLevelUp, dif_neg h]
    exact Nat.not_le.mp h

/-- The loop of `checkAndProcessLevelUp` preserves well-formedness (the
stored threshold stays the one recomputed from the level). -/
theorem Level.checkAndProcess_wf (s : Level) (hwf : s.WF) :
    s.checkAndProcessLevelUp.1.WF := by
  induction s using Level.checkAndProcessLevelUp.induct with
  | case1 s h ih =>
    rw [Level.checkAndProcess_step s h]
    exact ih rfl
  | case2 s h =>
    rw [Level.checkAndProcessLevelUp, dif_neg h]
    exact hwf

/-- The level never decreases across the loop of
`checkAndProcessLevelUp`. -/
theorem Level.value_le_checkAndProcess (s : Level) :
    s.value ≤ s.checkAndProcessLevelUp.1.value := by
  induction s using Level.checkAndProcessLevelUp.induct with
  | case1 s h ih =>
    rw [Level.checkAndProcess_step s h]
    exact le_trans (Nat.le_succ s.value) ih
  | case2 s h =>
    rw [Level.checkAndProcessLevelUp, dif_neg h]

/-- The boolean returned by `checkAndProcessLevelUp` reports exactly
whether the level increased. -/
theorem Level.checkAndProcess_flag (s : Level) :
    s.checkAndProcessLevelUp.2 = true ↔ s.value < s.checkAndProcessLevelUp.1.value := by
  by_cases h : s.expToNextLevel ≤ s.exp
  · rw [Level.checkAndProcess_step s h]
    constructor
    · intro _
      exact lt_of_lt_of_le (Nat.lt_succ_self s.value)
        (Level.value_le_checkAndProcess (Level.levelUp s))
    · intro _
      rfl
  · rw [Level.checkAndProcessLevelUp, dif_neg h]
    constructor
    · intro hft
      exact absurd hft (by simp)
    · intro hlt
      exact absurd hlt (lt_irrefl _)

/-- From a state with zero residual experience, gaining exactly the
stored threshold levels up exactly once and leaves zero residual
experience. -/
theorem Level.gainExp_exact (s : Level) (h0 : s.exp = 0) :
    s.gainExp s.expToNextLevel
      = (⟨s.value + 1, 0, calculateExpToNextLevel (s.value + 1)⟩, true) := by
  unfold Level.gainExp
  rw [Level.checkAndProcess_step _ (by simp)]
  have hlev : Level.levelUp { s with exp := s.exp + s.expToNextLevel }
      = ⟨s.value + 1, 0, calculateExpToNextLevel (s.value + 1)⟩ := by
    simp [Level.levelUp, h0]
  rw [hlev, Level.checkAndProcess_stop _ (by simp [calculateExpToNextLevel_eq])]

/-- From a well-formed state with zero residual experience, gaining
twice the stored threshold plus one levels up exactly once, carrying
over `threshold + 1`. -/
theorem Level.gainExp_twice_plus_one (s : Level) (hwf : s.WF) (h0 : s.exp = 0) :
    s.gainExp (2 * s.expToNextLevel + 1)
      = (⟨s.value + 1, s.expToNextLevel + 1, calculateExpToNextLevel (s.value + 1)⟩, true) := by
  unfold Level.gainExp
  rw [Level.checkAndProcess_step _
    (by show s.expToNextLevel ≤ s.exp + (2 * s.expToNextLevel + 1); omega)]
  have hlev : Level.levelUp { s with exp := s.exp + (2 * s.expToNextLevel + 1) }
      = ⟨s.value + 1, s.expToNextLevel + 1, calculateExpToNextLevel (s.value + 1)⟩ := by
    simp only [Level.levelUp]
    rw [h0]
    congr 1
    omega
  rw [hlev, Level.checkAndProcess_stop]
  rw [Level.WF] at hwf
  simp only [calculateExpToNextLevel_eq] at hwf ⊢
  omega

/-- C5 — counterexample.  The claim asserts that gaining
`2 × threshold + 1` in one call triggers at least two sequential
level-ups.  At level 1 the threshold is 150, and gaining
`2 × 150 + 1 = 301` yields level 2 — exactly one level-up, because the
carried-over experience `151` is below the recomputed threshold `300`;
at least two level-ups would require the final level to be `≥ 3`. -/
theorem double_levelup_counterexample :
    (Level.make 1 0).expToNextLevel = 150 ∧
    (Level.gainExp (Level.make 1 0) (2 * 150 + 1)).1.value = 2 ∧
    (Level.gainExp (Level.make 1 0) (2 * 150 + 1)).1.exp = 151 ∧
    ¬ 3 ≤ (Level.gainExp (Level.make 1 0) (2 * 150 + 1)).1.value := by
  have hth : (Level.make 1 0).expToNextLevel = 150 := by
    simp [Level.make, calculateExpToNextLevel_eq]
  have h := Level.gainExp_twice_plus_one (Level.make 1 0) rfl rfl
  rw [hth] at h
  refine ⟨hth, ?_, ?_, ?_⟩ <;> rw [h] <;> simp [Level.make]

/-- C5 — amended claim.  `gainExp(amount)` adds the amount and then
repeatedly levels up while the experience is at or above the threshold
(subtracting the threshold, incrementing the level, recomputing the
threshold); from a well-formed state with zero residual experience,
gaining exactly the current threshold triggers exactly one level-up
leaving zero residual experience; gaining `2 × threshold + 1` in one
call triggers exactly ONE level-up with carry-over `threshold + 1`
(not two or more, since `threshold + 1` is below the recomputed
threshold); and the call returns whether at least one level-up
occurred. -/
theorem gainExp_behavior (s : Level) (hwf : s.WF) (hlv : 1 ≤ s.value)
    (h0 : s.exp = 0) :
    s.gainExp s.expToNextLevel
      = (⟨s.value + 1, 0, calculateExpToNextLevel (s.value + 1)⟩, true) ∧
    s.gainExp (2 * s.expToNextLevel + 1)
      = (⟨s.value + 1, s.expToNextLevel + 1, calculateExpToNextLevel (s.value + 1)⟩, true) ∧
    ∀ amount : ℕ, ((s.gainExp amount).2 = true ↔ s.value < (s.gainExp amount).1.value) := by
  refine ⟨Level.gainExp_exact s h0, Level.gainExp_twice_plus_one s hwf h0, fun amount => ?_⟩
  exact Level.checkAndProcess_flag { s with exp := s.exp + amount }

/-- C5 — witness: the amended claim at the concrete state level 3,
experience 0 (threshold 450). -/
theorem gainExp_behavior_witness :
    (Level.make 3 0).WF ∧ 1 ≤ (3 : ℕ) ∧
    (Level.make 3 0).gainExp (Level.make 3 0).expToNextLevel
      = (⟨4, 0, calculateExpToNextLevel 4⟩, true) ∧
    ((Level.make 3 0).gainExp 37).2 = false :=
  ⟨rfl, by omega,
   (gainExp_behavior (Level.make 3 0) rfl (by simp [Level.make]) rfl).1,
   by
    have hs : ((Level.make 3 0).gainExp 37).1.value = 3 := by
      unfold Level.gainExp
      rw [Level.checkAndProcess_stop _
        (by simp [Level.make, calculateExpToNextLevel_eq])]
      rfl
    have hiff := (gainExp_behavior (Level.make 3 0) rfl (by simp [Level.make]) rfl).2.2 37
    rw [hs] at hiff
    simp only [Level.make] at hiff
    simpa using hiff⟩

/-- C6.  For every well-formed progression state with level ≥ 1 and
experience strictly below the threshold, after `gainExp` with any
non-negative amount the experience is again strictly below the
(recomputed) threshold, and the stored threshold is again the one
computed from the new level. -/
theorem exp_below_threshold_invariant (s : Level) (amount : ℕ)
    (hwf : s.WF) (hlv : 1 ≤ s.value) (hlt : s.exp < s.expToNextLevel) :
    (s.gainExp amount).1.exp < (s.gainExp amount).1.expToNextLevel ∧
    (s.gainExp amount).1.WF := by
  unfold Level.gainExp
  exact ⟨Level.checkAndProcess_exp_lt _, Level.checkAndProcess_wf _ hwf⟩

/-- C6 — witness: the invariant at the concrete state level 1,
experience 0, gaining 9001. -/
theorem exp_below_threshold_invariant_witness :
    ((Level.make 1 0).gainExp 9001).1.exp < ((Level.make 1 0).gainExp 9001).1.expToNextLevel ∧
    ((Level.make 1 0).gainExp 9001).1.WF :=
  exp_below_threshold_invariant (Level.make 1 0) 9001 rfl (by simp [Level.make])
    (by simp [Level.make, calculateExpToNextLevel_eq])

/-- C7.  The ResourceBar invariants `0 ≤ position ≤ maximum` and
`maximum > 0` hold after construction and are preserved by every
operation: assigning the current value (the source's `value` setter,
through which every additive adjustment — any delta, positive or
negative or larger than the range — is performed) clamps into
`[0, maximum]`, and reassigning the maximum clamps the position down
when it would exceed the new maximum. -/
theorem bar_invariant :
    (∀ (mx ip : ℚ) (b : Bar), Bar.make mx ip = .ok b → b.Inv) ∧
    (∀ (b : Bar) (x : ℚ), b.Inv → (b.setValue x).Inv) ∧
    (∀ (b : Bar) (m : ℚ) (b' : Bar), b.Inv → b.setMax m = .ok b' → b'.Inv) := by
  refine ⟨fun mx ip b h => ?_, fun b x hb => ?_, fun b m b' hb h => ?_⟩
  · unfold Bar.make at h
    split at h
    · exact absurd h (by simp)
    · rename_i hc
      injection h with h
      subst h
      refine ⟨le_min (le_max_left 0 ip) (le_of_lt (not_le.mp hc)), min_le_right _ _,
        not_le.mp hc⟩
  · obtain ⟨h1, h2, h3⟩ := hb
    exact ⟨le_min (le_max_left 0 x) (le_of_lt h3), min_le_right _ _, h3⟩
  · obtain ⟨h1, h2, h3⟩ := hb
    unfold Bar.setMax at h
    split at h
    · exact absurd h (by simp)
    · rename_i hc
      injection h with h
      subst h
      have hm : 0 < m := not_le.mp hc
      by_cases hp : b._position > m
      · exact ⟨by simp [hp, le_of_lt hm], by simp [hp], hm⟩
      · exact ⟨by simp [hp, h1], by simp [hp]; exact not_lt.mp hp, hm⟩

/-- C7 — witness: the invariant at a concrete bar 3/10 for an
overshooting negative adjustment, an overshooting positive adjustment,
and a maximum reassignment below the position. -/
theorem bar_invariant_witness :
    (⟨10, 3⟩ : Bar).Inv ∧
    ((⟨10, 3⟩ : Bar).setValue (3 - 999)).Inv ∧
    ((⟨10, 3⟩ : Bar).setValue (3 + 999)).Inv ∧
    (⟨2, 2⟩ : Bar).Inv :=
  ⟨by norm_num [Bar.Inv],
   bar_invariant.2.1 ⟨10, 3⟩ (3 - 999) (by norm_num [Bar.Inv]),
   bar_invariant.2.1 ⟨10, 3⟩ (3 + 999) (by norm_num [Bar.Inv]),
   bar_invariant.2.2 ⟨10, 3⟩ 2 ⟨2, 2⟩ (by norm_num [Bar.Inv])
     (by norm_num [Bar.setMax])⟩

/-- C8 — counterexample.  The claim asserts the defeat signal
(`takeDamage` returning true) triggers exactly once with no
double-trigger on subsequent redundant damage calls while the bar is at
0.  For a monster whose HP bar is 3/10, `takeDamage(5)` clamps the
position to 0 and returns true — but a second redundant `takeDamage(5)`
on the resulting monster returns true AGAIN (the source returns
`hpBar.isEmpty()` on every call, a level signal, not an edge signal). -/
theorem defeat_double_trigger_counterexample :
    ((Monster.takeDamage ⟨Stats.ofValues fun _ => none, ⟨10, 3⟩⟩ 5).1.hpBar._position = 0) ∧
    ((Monster.takeDamage ⟨Stats.ofValues fun _ => none, ⟨10, 3⟩⟩ 5).1.hpBar.isEmpty = true) ∧
    ((Monster.takeDamage ⟨Stats.ofValues fun _ => none, ⟨10, 3⟩⟩ 5).2 = true) ∧
    (((Monster.takeDamage ⟨Stats.ofValues fun _ => none, ⟨10, 3⟩⟩ 5).1.takeDamage 5).2
      = true) := by
  refine ⟨?_, ?_, ?_, ?_⟩ <;>
    norm_num [Monster.takeDamage, Bar.setValue, Bar.isEmpty]

/-- C8 — amended claim.  A Monster whose HP bar is at 3/10 and takes 5
damage has its position clamped to 0 with `isEmpty()` true and
`takeDamage` returning true; however the defeat signal is REPEATED, not
edge-triggered: every subsequent redundant damage call with a
non-negative amount while the bar is at 0 keeps the position at 0 and
returns true again (in the game loop the defeat branch still runs only
once, because the combat loop exits on the first signal). -/
theorem defeat_signal_behavior :
    (∀ m : Monster, m.hpBar = ⟨10, 3⟩ →
      (m.takeDamage 5).1.hpBar._position = 0 ∧
      (m.takeDamage 5).1.hpBar.isEmpty = true ∧
      (m.takeDamage 5).2 = true) ∧
    (∀ (m : Monster) (amount : ℚ), m.hpBar._position = 0 → 0 ≤ m.hpBar._max →
      0 ≤ amount →
      (m.takeDamage amount).1.hpBar._position = 0 ∧ (m.takeDamage amount).2 = true) := by
  constructor
  · intro m hm
    refine ⟨?_, ?_, ?_⟩ <;> simp [Monster.takeDamage, Bar.setValue, Bar.isEmpty, hm] <;>
      norm_num
  · intro m amount hp hmx ha
    have hz : min (max 0 (m.hpBar._position - amount)) m.hpBar._max = 0 := by
      rw [hp]
      rw [max_eq_left (by linarith)]
      exact min_eq_left hmx
    constructor
    · simpa [Monster.takeDamage, Bar.setValue] using hz
    · simp [Monster.takeDamage, Bar.setValue, Bar.isEmpty, hz]

/-- C8 — witness: the amended claim at the concrete monster with HP bar
3/10, hit twice for 5. -/
theorem defeat_signal_behavior_witness :
    ((Monster.takeDamage ⟨Stats.ofValues fun _ => none, ⟨10, 3⟩⟩ 5).2 = true) ∧
    (((Monster.takeDamage ⟨Stats.ofValues fun _ => none, ⟨10, 3⟩⟩ 5).1.takeDamage 5).2
      = true) :=
  ⟨(defeat_signal_behavior.1 ⟨Stats.ofValues fun _ => none, ⟨10, 3⟩⟩ rfl).2.2,
   (defeat_signal_behavior.2 (Monster.takeDamage ⟨Stats.ofValues fun _ => none, ⟨10, 3⟩⟩ 5).1 5
     (by norm_num [Monster.takeDamage, Bar.setValue])
     (by norm_num [Monster.takeDamage, Bar.setValue])
     (by norm_num)).2⟩

/-- C9.  `Stats.set(ability, value)` fails with the invalid-ability
error for any ability outside the recognized enumerated set, fails with
the invalid-value error when the value is negative (the not-a-number
half of the source's check has no counterpart here, every `ℚ` being a
number), and otherwise overwrites exactly the addressed entry; both
guards precede the write, so a failing call returns the error without
any partial effect on the stored values. -/
theorem stats_set_validation (s : Stats) (t : String) (v : ℚ) :
    (t ∉ statTypeValues → s.set t v = .error .invalidAbility) ∧
    (t ∈ statTypeValues → v < 0 → s.set t v = .error .invalidValue) ∧
    (t ∈ statTypeValues → 0 ≤ v →
      ∃ s' : Stats, s.set t v = .ok s' ∧ s'._values t = v ∧
        ∀ u : String, u ≠ t → s'._values u = s._values u) := by
  refine ⟨fun h => ?_, fun h1 h2 => ?_, fun h1 h2 => ?_⟩
  · unfold Stats.set
    rw [if_pos h]
  · unfold Stats.set
    rw [if_neg (not_not_intro h1), if_pos h2]
  · unfold Stats.set
    rw [if_neg (not_not_intro h1), if_neg (not_lt.mpr h2)]
    exact ⟨_, rfl, by simp, fun u hu => by simp [hu]⟩

/-- C9 — witness: the validation at the concrete unrecognized ability
"XYZ", the negative value -1 on "STR", and the successful overwrite of
"STR" with 3. -/
theorem stats_set_validation_witness :
    ((Stats.ofValues fun _ => none).set "XYZ" 3 = .error .invalidAbility) ∧
    ((Stats.ofValues fun _ => none).set "STR" (-1) = .error .invalidValue) ∧
    ((Stats.ofValues fun _ => none).set "STR" 3).isOk = true :=
  ⟨(stats_set_validation (Stats.ofValues fun _ => none) "XYZ" 3).1 (by decide),
   (stats_set_validation (Stats.ofValues fun _ => none) "STR" (-1)).2.1 (by decide)
     (by norm_num),
   by
    obtain ⟨s', hs', -, -⟩ :=
      (stats_set_validation (Stats.ofValues fun _ => none) "STR" 3).2.2 (by decide)
        (by norm_num)
    rw [hs']
    rfl⟩

/-- C1 — counterexample.  The claim asserts the monster's attackPower is
`max(1, bonus(STR))`, or 5 when STR is absent.  A monster with STR 14
has attackPower 14 — the source uses the RAW stat value, not the bonus,
and `max(1, bonus(14)) = max(1, 2) = 2 ≠ 14`; and a monster constructed
with no STR entry gets the construction default 10, so its attackPower
is 10, not 5. -/
theorem monster_attackPower_bonus_counterexample :
    Monster.attackPower
      ⟨Stats.ofValues (fun t => if t = "STR" then some 14 else none), ⟨10, 10⟩⟩ = 14 ∧
    max 1 ((calculateStatBonus 14 : ℚ)) = 2 ∧ ((14 : ℚ) ≠ 2) ∧
    Monster.attackPower ⟨Stats.ofValues (fun _ => none), ⟨10, 10⟩⟩ = 10 ∧
    ((10 : ℚ) ≠ 5) := by
  refine ⟨?_, ?_, by norm_num, ?_, by norm_num⟩
  · norm_num [Monster.attackPower, Stats.ofValues, statTypeValues]
  · norm_num [calculateStatBonus]
  · norm_num [Monster.attackPower, Stats.ofValues, statTypeValues]

/-- C1 — amended claim.  For every Monster, the derived attackPower
equals `max(1, v)` where `v` is the RAW stored STR value, except that a
falsy (zero) stored value is replaced by 5 first; a Monster constructed
without a STR entry stores the default 10 (so its attackPower is 10,
not 5); and the attribute is recomputed from the current StatBlock on
every read, so it reflects any successful `set` of STR immediately. -/
theorem monster_attackPower_formula (m : Monster) (v : ℚ)
    (hv : m.stats.get "STR" = .ok v) :
    m.attackPower = max 1 (if v = 0 then 5 else v) ∧
    (∀ (vals : String → Option ℚ) (b : Bar), vals "STR" = none →
      Monster.attackPower ⟨Stats.ofValues vals, b⟩ = 10) ∧
    (∀ (s s' : Stats) (b : Bar) (w : ℚ), s.set "STR" w = .ok s' →
      Monster.attackPower ⟨s', b⟩ = max 1 (if w = 0 then 5 else w)) := by
  refine ⟨?_, fun vals b hnone => ?_, fun s s' b w hset => ?_⟩
  · rw [Stats.get_STR] at hv
    injection hv with hv
    rw [Monster.attackPower, hv]
  · rw [Monster.attackPower]
    have hval : (Stats.ofValues vals)._values "STR" = 10 := by
      simp [Stats.ofValues, statTypeValues, hnone]
    rw [hval]
    norm_num
  · unfold Stats.set at hset
    rw [if_neg (by decide : ¬ "STR" ∉ statTypeValues)] at hset
    split at hset
    · exact absurd hset (by simp)
    · injection hset with hset
      subst hset
      rw [Monster.attackPower]
      simp

/-- C1 — witness: the amended claim at the concrete monsters with
STR 14, with no STR entry, and after `set("STR", 0)`. -/
theorem monster_attackPower_formula_witness :
    Monster.attackPower
      ⟨Stats.ofValues (fun t => if t = "STR" then some 14 else none), ⟨10, 10⟩⟩
      = max 1 (if (14 : ℚ) = 0 then 5 else 14) ∧
    Monster.attackPower ⟨Stats.ofValues (fun _ => none), ⟨10, 10⟩⟩ = 10 :=
  have h := monster_attackPower_formula
    ⟨Stats.ofValues (fun t => if t = "STR" then some 14 else none), ⟨10, 10⟩⟩ 14
    (by norm_num [Stats.get, Stats.ofValues, statTypeValues])
  ⟨h.1, h.2.1 (fun _ => none) ⟨10, 10⟩ rfl⟩

/-- C3 — counterexample.  The claim asserts the player's attackPower is
`floor(max(1, 5 + bonus(STR) + d/2 + 1))` with `d = 0` when no weapon is
equipped.  A player with STR 14 (bonus +2) and NO equipped weapon has
attackPower 7, because the source adds the `d/2 + 1` term only when a
weapon with a damage string is present; the claim's formula with `d = 0`
demands `floor(max(1, 5 + 2 + 0/2 + 1)) = 8`. -/
theorem player_attackPower_unarmed_counterexample :
    Player.attackPower
      ⟨Stats.ofValues (fun t => if t = "STR" then some 14 else none), none⟩ = some 7 ∧
    ((⌊max 1 ((5 : ℚ) + 2 + 0 / 2 + 1)⌋ : ℤ) = 8) ∧
    (some (7 : ℤ) ≠ some (8 : ℤ)) := by
  refine ⟨?_, by norm_num, by simp⟩
  norm_num [Player.attackPower, Stats.ofValues, statTypeValues, calculateStatBonus]

/-- C3 — amended claim.  For every Player, the derived attackPower
equals `floor(max(1, 5 + bonus(STR) + d/2 + 1))` where `d` is the
equipped weapon's die-side count parsed from its "NdM" damage string,
PROVIDED a weapon with a (parsable, non-empty) damage string is
equipped; with no equipped weapon the `d/2 + 1` term is absent entirely
and attackPower is `floor(max(1, 5 + bonus(STR)))` — so a player with
STR 14 has attackPower 8 with a die-count-0 weapon such as "1d0", but 7
with no weapon at all. -/
theorem player_attackPower_formula (p : Player) (w : Weapon) (d : ℕ) :
    (p.equippedWeapon = some w → w.damage ≠ "" → damageDieSides w.damage = some d →
      p.attackPower = some ⌊max 1 (5 + (p.stats.getBonus "STR" : ℚ) + (d : ℚ) / 2 + 1)⌋) ∧
    (p.equippedWeapon = none →
      p.attackPower = some ⌊max 1 (5 + (p.stats.getBonus "STR" : ℚ))⌋) ∧
    (p.stats._values "STR" = 14 → p.equippedWeapon = none → p.attackPower = some 7) ∧
    (p.stats._values "STR" = 14 → p.equippedWeapon = some w → w.damage ≠ "" →
      damageDieSides w.damage = some 0 → p.attackPower = some 8) := by
  refine ⟨fun hw hd hds => ?_, fun hn => ?_, fun h14 hn => ?_, fun h14 hw hd hds => ?_⟩
  · simp only [Player.attackPower, hw, hds, if_neg hd]
    rw [Stats.getBonus_STR]
  · simp only [Player.attackPower, hn]
    rw [Stats.getBonus_STR]
  · simp only [Player.attackPower, hn]
    rw [h14]
    norm_num [calculateStatBonus]
  · simp only [Player.attackPower, hw, hds, if_neg hd]
    rw [h14]
    norm_num [calculateStatBonus]

/-- C3 — witness: the amended claim at the concrete player with STR 14,
unarmed and with the die-count-0 weapon "1d0". -/
theorem player_attackPower_formula_witness :
    Player.attackPower
      ⟨Stats.ofValues (fun t => if t = "STR" then some 14 else none), none⟩ = some 7 ∧
    Player.attackPower
      ⟨Stats.ofValues (fun t => if t = "STR" then some 14 else none), some ⟨"1d0"⟩⟩
      = some 8 :=
  ⟨(player_attackPower_formula
      ⟨Stats.ofValues (fun t => if t = "STR" then some 14 else none), none⟩ ⟨"1d0"⟩ 0).2.2.1
      (by norm_num [Stats.ofValues, statTypeValues]) rfl,
   (player_attackPower_formula
      ⟨Stats.ofValues (fun t => if t = "STR" then some 14 else none), some ⟨"1d0"⟩⟩ ⟨"1d0"⟩ 0).2.2.2
      (by norm_num [Stats.ofValues, statTypeValues]) rfl (by decide) rfl⟩

/-- C10.  A Monster whose stored STR value is 0 has attackPower
`max(1, 5) = 5` (the JavaScript falsy-or default), not `max(1, 0) = 1`;
a Monster whose stored CON value is 0 has defense
`max(0, 1/2) = 1/2`, not 0; for any nonzero CON value `c` the defense
is `max(0, c/2)` and may be fractional — and the player-turn mitigation
applies `floor` to the defense inside `max(1, damage − floor(defense))`. -/
theorem monster_falsy_stat_derivation (m : Monster) (c : ℚ) :
    (m.stats.get "STR" = .ok 0 → m.attackPower = 5) ∧
    (m.stats.get "CON" = .ok 0 → m.defense = max 0 (1 / 2) ∧ m.defense = 1 / 2) ∧
    (m.stats.get "CON" = .ok c → c ≠ 0 → m.defense = max 0 (c / 2)) ∧
    (∀ hitChance criticalChance attackPower critMult hitDraw critDraw : ℚ,
      hitDraw < hitChance / 100 → ¬ critDraw < criticalChance / 100 →
      resolvePlayerAttack hitChance criticalChance attackPower m.defense critMult
        hitDraw critDraw = some (max 1 (attackPower - (⌊m.defense⌋ : ℚ)))) := by
  refine ⟨fun h => ?_, fun h => ?_, fun h hc => ?_, fun hc cc ap cm hd cd hhit hncrit => ?_⟩
  · rw [Stats.get_STR] at h
    injection h with h
    rw [Monster.attackPower, h]
    norm_num
  · rw [Stats.get_CON] at h
    injection h with h
    constructor <;> rw [Monster.defense, h] <;> norm_num
  · rw [Stats.get_CON] at h
    injection h with h
    rw [Monster.defense, h, if_neg hc]
  · unfold resolvePlayerAttack
    rw [if_pos hhit, if_neg hncrit]

/-- C10 — witness: the derivations at the concrete monsters with STR 0 /
CON 0 and with CON 5 (fractional defense 5/2, floored to 2 in the
mitigation). -/
theorem monster_falsy_stat_derivation_witness :
    Monster.attackPower
      ⟨Stats.ofValues (fun t => if t = "STR" then some 0 else some 0), ⟨10, 10⟩⟩ = 5 ∧
    Monster.defense
      ⟨Stats.ofValues (fun t => if t = "STR" then some 0 else some 0), ⟨10, 10⟩⟩ = 1 / 2 ∧
    Monster.defense
      ⟨Stats.ofValues (fun t => if t = "CON" then some 5 else none), ⟨10, 10⟩⟩
      = max 0 (5 / 2) ∧
    resolvePlayerAttack 100 0 10
      (Monster.defense ⟨Stats.ofValues (fun t => if t = "CON" then some 5 else none), ⟨10, 10⟩⟩)
      2 (1 / 2) (1 / 2)
      = some (max 1 ((10 : ℚ) -
          ((⌊Monster.defense ⟨Stats.ofValues (fun t => if t = "CON" then some 5 else none),
              ⟨10, 10⟩⟩⌋ : ℤ) : ℚ))) :=
  ⟨(monster_falsy_stat_derivation
      ⟨Stats.ofValues (fun t => if t = "STR" then some 0 else some 0), ⟨10, 10⟩⟩ 0).1
      (by norm_num [Stats.get, Stats.ofValues, statTypeValues]),
   ((monster_falsy_stat_derivation
      ⟨Stats.ofValues (fun t => if t = "STR" then some 0 else some 0), ⟨10, 10⟩⟩ 0).2.1
      (by norm_num [Stats.get, Stats.ofValues, statTypeValues])).2,
   (monster_falsy_stat_derivation
      ⟨Stats.ofValues (fun t => if t = "CON" then some 5 else none), ⟨10, 10⟩⟩ 5).2.2.1
      (by norm_num [Stats.get, Stats.ofValues, statTypeValues]) (by norm_num),
   (monster_falsy_stat_derivation
      ⟨Stats.ofValues (fun t => if t = "CON" then some 5 else none), ⟨10, 10⟩⟩ 5).2.2.2
      100 0 10 2 (1 / 2) (1 / 2) (by norm_num) (by norm_num)⟩

/-- C2 — counterexample.  The claim asserts the evasion test is applied
for both combatant roles.  In the player-attacks-monster resolution the
source performs NO evasion test: with hit chance 100, attack power 5,
defense 0 and an evade draw 0 against a defender evasion rate of 100
(a draw that the claimed test `0 < 100/100` would turn into damage 0,
as the spec-following resolver shows), the source still applies
damage 5. -/
theorem evasion_symmetry_counterexample :
    resolvePlayerAttack 100 0 5 0 2 0 (1 / 2) = some 5 ∧
    resolvePlayerAttackSpec 100 0 5 0 100 2 0 (1 / 2) 0 = some 0 ∧
    ((0 : ℚ) < 100 / 100) ∧
    resolvePlayerAttack 100 0 5 0 2 0 (1 / 2)
      ≠ resolvePlayerAttackSpec 100 0 5 0 100 2 0 (1 / 2) 0 := by
  have h1 : resolvePlayerAttack 100 0 5 0 2 0 (1 / 2) = some 5 := by
    norm_num [resolvePlayerAttack]
  have h2 : resolvePlayerAttackSpec 100 0 5 0 100 2 0 (1 / 2) 0 = some 0 := by
    norm_num [resolvePlayerAttackSpec]
  refine ⟨h1, h2, by norm_num, ?_⟩
  rw [h1, h2]
  norm_num

/-- C2 — amended claim.  The evasion test (uniform draw in `[0,1)`
against `defender.evasionRate/100`, after damage computation,
overriding the damage to 0) is applied ONLY when the monster attacks
the player; when the player attacks the monster there is no evasion
test at all — on any hit the applied damage is at least 1, whatever the
monster's evasion data. -/
theorem evasion_monster_side_only (hitChance criticalChance attackPower defense evasionRate
    critMult hitDraw critDraw evadeDraw : ℚ)
    (hhit : hitDraw < hitChance / 100) :
    (evadeDraw < evasionRate / 100 →
      resolveMonsterAttack hitChance criticalChance attackPower defense evasionRate critMult
        hitDraw critDraw evadeDraw = some 0) ∧
    (∀ dmg : ℚ,
      resolvePlayerAttack hitChance criticalChance attackPower defense critMult hitDraw critDraw
        = some dmg → 1 ≤ dmg) := by
  constructor
  · intro hev
    unfold resolveMonsterAttack
    rw [if_pos hhit]
    simp [hev]
  · intro dmg h
    unfold resolvePlayerAttack at h
    rw [if_pos hhit] at h
    injection h with h
    rw [← h]
    exact le_max_left _ _

/-- C2 — witness: the amended claim at concrete draws — the monster's
attack on the player with evasion rate 100 is evaded to damage 0, while
the player's hit deals damage 5 ≥ 1. -/
theorem evasion_monster_side_only_witness :
    resolveMonsterAttack 100 0 5 0 100 2 0 (1 / 2) 0 = some 0 ∧
    (1 : ℚ) ≤ 5 :=
  ⟨(evasion_monster_side_only 100 0 5 0 100 2 0 (1 / 2) 0 (by norm_num)).1 (by norm_num),
   (evasion_monster_side_only 100 0 5 0 100 2 0 (1 / 2) 0 (by norm_num)).2 5
     (by norm_num [resolvePlayerAttack])⟩

/-- C4 — counterexample.  The claim asserts that with attacker hitChance
100 and defender evasionRate 0 the applied damage is
`max(1, attackPower − floor(defense))` with no dependency on any random
draw.  With criticalChance 100 and critical multiplier 2, attack power
3, defense 0, a critical draw of 0 makes the source apply damage
`floor(3 × 2) = 6 ≠ max(1, 3 − 0) = 3` — the critical draw still
influences the result, in both attack directions. -/
theorem deterministic_damage_crit_counterexample :
    resolvePlayerAttack 100 100 3 0 2 0 0 = some 6 ∧
    resolveMonsterAttack 100 100 3 0 0 2 0 0 0 = some 6 ∧
    max 1 ((3 : ℚ) - (⌊(0 : ℚ)⌋ : ℚ)) = 3 ∧
    some (6 : ℚ) ≠ some (3 : ℚ) := by
  refine ⟨?_, ?_, by norm_num, by norm_num⟩
  · norm_num [resolvePlayerAttack]
  · norm_num [resolveMonsterAttack]

/-- C4 — amended claim.  When the attacker's hitChance is 100, the
defender's evasionRate is 0, the draws lie in `[0, 1)`, and additionally
the critical test fails (e.g. criticalChance 0), the damage applied by
one attack resolution — in either direction — equals
`max(1, attackPower − floor(defense))` deterministically; in particular
a non-evaded hit always applies at least 1 damage. -/
theorem deterministic_damage_no_crit (hitChance criticalChance attackPower defense evasionRate
    critMult hitDraw critDraw evadeDraw : ℚ)
    (hhc : hitChance = 100) (her : evasionRate = 0)
    (hhd1 : hitDraw < 1) (hed : 0 ≤ evadeDraw)
    (hnc : ¬ critDraw < criticalChance / 100) :
    resolvePlayerAttack hitChance criticalChance attackPower defense critMult hitDraw critDraw
      = some (max 1 (attackPower - (⌊defense⌋ : ℚ))) ∧
    resolveMonsterAttack hitChance criticalChance attackPower defense evasionRate critMult
        hitDraw critDraw evadeDraw
      = some (max 1 (attackPower - (⌊defense⌋ : ℚ))) ∧
    1 ≤ max 1 (attackPower - (⌊defense⌋ : ℚ)) := by
  have h100 : hitChance / 100 = 1 := by rw [hhc]; norm_num
  have hhit : hitDraw < hitChance / 100 := by rw [h100]; exact hhd1
  have h0 : evasionRate / 100 = 0 := by rw [her]; norm_num
  have hnoev : ¬ evadeDraw < evasionRate / 100 := by rw [h0]; exact not_lt.mpr hed
  refine ⟨?_, ?_, le_max_left _ _⟩
  · unfold resolvePlayerAttack
    rw [if_pos hhit, if_neg hnc]
  · unfold resolveMonsterAttack
    rw [if_pos hhit]
    simp [hnc, hnoev]

/-- C4 — witness: the amended claim at hitChance 100, criticalChance 0,
attack power 5, fractional defense 7/2 (floored to 3), evasion rate 0,
draws 1/2. -/
theorem deterministic_damage_no_crit_witness :
    resolvePlayerAttack 100 0 5 (7 / 2) 2 (1 / 2) (1 / 2)
      = some (max 1 ((5 : ℚ) - (⌊(7 / 2 : ℚ)⌋ : ℚ))) ∧
    resolveMonsterAttack 100 0 5 (7 / 2) 0 2 (1 / 2) (1 / 2) (1 / 2)
      = some (max 1 ((5 : ℚ) - (⌊(7 / 2 : ℚ)⌋ : ℚ))) ∧
    1 ≤ max 1 ((5 : ℚ) - (⌊(7 / 2 : ℚ)⌋ : ℚ)) :=
  deterministic_damage_no_crit 100 0 5 (7 / 2) 0 2 (1 / 2) (1 / 2) (1 / 2) rfl rfl
    (by norm_num) (by norm_num) (by norm_num)

end TextRPG
